import Mathlib

/-!
Verification development for the ssh_attackpod_proxy repository.

The embedding below follows the current program (the snapshot containing the
migration engine, the manual proxy handler with suppressed-submission mode,
and the dictionary-normalized storage): function and constant names match the
Go source where Lean allows it.  External effects are made explicit:

* the SQLite database handle becomes an explicit `DBState` value threaded
  through the functions; a rolled-back transaction returns the original state;
* the two SQL statements executed by `saveAttackToDB` are given their SQLite
  semantics by hand.  The duplicate-check statement text is reproduced
  verbatim from the source; a small model of the SQLite parser for
  WHERE-clause conjunctions (`whereConjValid`) decides whether the statement
  prepares at all, because the source text contains the token `ANS` where the
  SQL connective `AND` is required, which SQLite rejects with a syntax error;
* `log.Printf` calls are dropped (pure logging), `log.Fatalf` becomes an
  explicit fatal outcome, and environment lookup becomes a function argument.
-/

namespace SSHProxy

set_option maxRecDepth 40000

/-- Model of a Go `time.Time` instant (as carried by `FlexibleTime`): the
number of nanoseconds since the Unix epoch.  The location attached to a Go
time value (`t.Local()` changes it) is presentation metadata that does not
affect the instant, so it is not represented. -/
structure GoTime where
  unixNano : Int
  deriving DecidableEq, Repr

/-- Go `time.Time.UnixMilli`: milliseconds since the epoch.  Since the
nanosecond-of-second component of a Go time is non-negative, this is floor
division of the nanosecond count by 1000000. -/
def GoTime.unixMilli (t : GoTime) : Int :=
  Int.fdiv t.unixNano 1000000

/-- The `Attack` struct parsed from the submission payload (source: the
`Attack` type with JSON tags `source_ip`, `destination_ip`, `username`,
`password`, `attack_timestamp`, `evidence`, `attack_type`, `test_mode`). -/
structure Attack where
  sourceIP : String
  destinationIP : String
  username : String
  password : String
  attackTimestamp : GoTime
  evidence : String
  attackType : String
  testMode : Bool
  deriving DecidableEq, Repr

/-- One dictionary table (`_dict_source_ips`, ..., `_dict_evidences`) created
by migration version 6: rows of `(id, value)` with `value` unique. -/
structure DictTable where
  rows : List (Nat × String)
  deriving DecidableEq, Repr

/-- Semantics of the subquery `SELECT id FROM dict WHERE value = ?`: the id of
the first row whose value equals the argument, or SQL NULL (`none`). -/
def DictTable.lookupId (d : DictTable) (v : String) : Option Nat :=
  (d.rows.find? (fun r => r.2 == v)).map (fun r => r.1)

/-- One row of the `_attacks` fact table created by migration version 6
(the AUTOINCREMENT `id` column is not represented; no claim refers to it). -/
structure FactRow where
  timestamp : Int
  sourceIp : Nat
  destinationIp : Nat
  username : Nat
  password : Nat
  attackType : Nat
  evidence : Nat
  deriving DecidableEq, Repr

/-- The dictionary-normalized datastore as it exists after migration 6: the
six dictionary tables and the `_attacks` fact table.  The unused
`_sentence_words` and `_sentences` tables are omitted (nothing reads or
writes them). -/
structure DBState where
  dictSourceIps : DictTable
  dictDestinationIps : DictTable
  dictUsernames : DictTable
  dictPasswords : DictTable
  dictAttackTypes : DictTable
  dictEvidences : DictTable
  attacks : List FactRow
  deriving DecidableEq, Repr

/-- Go `strings.TrimSpace` (restricted to the ASCII whitespace that
`Char.isWhitespace` covers; the inputs in this development contain no other
Unicode space characters). -/
def goTrimSpace (s : String) : String :=
  String.mk (((s.data.dropWhile Char.isWhitespace).reverse.dropWhile Char.isWhitespace).reverse)

/-- Characters that continue an SQL identifier token. -/
def isIdentChar (c : Char) : Bool :=
  c.isAlphanum || c == '_' || c == '.'

/-- One step of the SQL tokenizer fold: the accumulator holds the finished
tokens (reversed) and the characters of the identifier currently being read
(reversed). -/
def sqlTokenizeStep (acc : List String × List Char) (c : Char) : List String × List Char :=
  if isIdentChar c then (acc.1, c :: acc.2)
  else
    let toks := if acc.2.isEmpty then acc.1 else String.mk acc.2.reverse :: acc.1
    if c.isWhitespace then (toks, [])
    else (String.mk [c] :: toks, [])

/-- Splits an SQL text into tokens: maximal identifier words, and single
punctuation characters; whitespace separates. -/
def sqlTokenize (s : String) : List String :=
  let r := s.data.foldl sqlTokenizeStep ([], [])
  (if r.2.isEmpty then r.1 else String.mk r.2.reverse :: r.1).reverse

/-- Uppercases a token (SQL keywords are case-insensitive). -/
def tokUpper (t : String) : String :=
  String.mk (t.data.map Char.toUpper)

/-- The tokens after the first `WHERE` keyword, if any.  In the statements of
this program the first `WHERE` is the outer one (subqueries occur only inside
parenthesised groups, which come after it). -/
def whereTail : List String → Option (List String)
  | [] => none
  | t :: rest => if tokUpper t == "WHERE" then some rest else whereTail rest

/-- Skips a balanced parenthesised token group (the opening parenthesis has
already been consumed); returns the tokens after the matching close. -/
def skipParenGroup : Nat → List String → Option (List String)
  | _, [] => none
  | d, t :: rest =>
    if t == "(" then skipParenGroup (d + 1) rest
    else if t == ")" then
      if d == 0 then some rest else skipParenGroup (d - 1) rest
    else skipParenGroup d rest

/-- Whether a token is an identifier word. -/
def isIdentTok (t : String) : Bool :=
  !t.data.isEmpty && t.data.all isIdentChar

/-- Recognises the right-hand side of one comparison: a bind marker or a
parenthesised subquery. -/
def parseRhsTokens : List String → Option (List String)
  | [] => none
  | t :: rest =>
    if t == "?" then some rest
    else if t == "(" then skipParenGroup 0 rest
    else none

/-- Recognises the SQLite grammar slice used by this program's WHERE clauses:
one or more comparisons `column = rhs` connected by the keyword `AND`.  After
a comparison the next token must be `AND` or the end of the clause; a bare
identifier there (such as the source's `ANS`) is a syntax error, exactly as
in SQLite. -/
def parseConds : Nat → List String → Bool
  | 0, _ => false
  | fuel + 1, ts =>
    match ts with
    | col :: eqTok :: rest =>
      if isIdentTok col && eqTok == "=" then
        match parseRhsTokens rest with
        | some [] => true
        | some (c :: rest2) => tokUpper c == "AND" && parseConds fuel rest2
        | none => false
      else false
    | _ => false

/-- Whether the WHERE clause of an SQL text is a well-formed conjunction of
comparisons (statements without a WHERE clause are not constrained by this
check). -/
def whereConjValid (sql : String) : Bool :=
  match whereTail (sqlTokenize sql) with
  | none => true
  | some ts => parseConds (ts.length + 1) ts

/-- The duplicate-check statement of `saveAttackToDB`, verbatim from the
source (whitespace normalised).  The second line reads `timestamp = ? ANS`:
the token `ANS` is not an SQL keyword, so SQLite fails to prepare this
statement and the query returns a syntax error instead of a row count. -/
def dupCheckQueryText : String :=
  "SELECT COUNT(*) FROM _attacks WHERE\n" ++
  "timestamp = ? ANS\n" ++
  "source_ip = (SELECT id FROM _dict_source_ips WHERE value = ?) AND\n" ++
  "destination_ip = (SELECT id FROM _dict_destination_ips WHERE value = ?) AND\n" ++
  "username = (SELECT id FROM _dict_usernames WHERE value = ?) AND\n" ++
  "password = (SELECT id FROM _dict_passwords WHERE value = ?) AND\n" ++
  "attack_type = (SELECT id FROM _dict_attack_types WHERE value = ?) AND\n" ++
  "evidence = (SELECT id FROM _dict_evidences WHERE value = ?)"

/-- Combines the six dictionary lookups with the millisecond timestamp into
the 7-tuple row both statements of `saveAttackToDB` work with; `none` when
any lookup yields SQL NULL. -/
def bindIds (s d u p t e : Option Nat) (ts : Int) : Option FactRow :=
  match s, d, u, p, t, e with
  | some s, some d, some u, some p, some t, some e => some ⟨ts, s, d, u, p, t, e⟩
  | _, _, _, _, _, _ => none

/-- The six dictionary ids the duplicate-check statement would bind for an
attack, combined with the millisecond timestamp into the 7-tuple it compares
against; `none` when any dictionary lookup yields SQL NULL.  Note the check
binds `attack.Evidence` untrimmed (unlike the insert, which trims it). -/
def checkTupleIds (db : DBState) (a : Attack) : Option FactRow :=
  bindIds (db.dictSourceIps.lookupId a.sourceIP) (db.dictDestinationIps.lookupId a.destinationIP)
    (db.dictUsernames.lookupId a.username) (db.dictPasswords.lookupId a.password)
    (db.dictAttackTypes.lookupId a.attackType) (db.dictEvidences.lookupId a.evidence)
    a.attackTimestamp.unixMilli

/-- The count the duplicate-check statement would return if it were
well-formed: matching fact rows, with SQL NULL semantics (a NULL produced by
an empty dictionary subquery makes every comparison untrue, so the count is
zero). -/
def dupCount (db : DBState) (a : Attack) : Nat :=
  match checkTupleIds db a with
  | some row => (db.attacks.filter (fun r => r == row)).length
  | none => 0

/-- Execution of the duplicate-check query: SQLite first prepares the
statement; since the text of `dupCheckQueryText` fails the WHERE-clause
grammar (the stray token `ANS`), preparation fails and the error surfaces
from the row scan.  The well-formed branch carries the intended count
semantics. -/
def runDupCheck (db : DBState) (a : Attack) : Except String Nat :=
  if whereConjValid dupCheckQueryText then Except.ok (dupCount db a)
  else Except.error "near \x22ANS\x22: syntax error"

/-- The dictionary ids the insert statement binds: as `checkTupleIds`, except
that the evidence value is `strings.TrimSpace`d before lookup (source binds
`strings.TrimSpace(attack.Evidence)` in the insert only). -/
def insertTupleIds (db : DBState) (a : Attack) : Option FactRow :=
  bindIds (db.dictSourceIps.lookupId a.sourceIP) (db.dictDestinationIps.lookupId a.destinationIP)
    (db.dictUsernames.lookupId a.username) (db.dictPasswords.lookupId a.password)
    (db.dictAttackTypes.lookupId a.attackType)
    (db.dictEvidences.lookupId (goTrimSpace a.evidence))
    a.attackTimestamp.unixMilli

/-- Semantics of the insert statement of `saveAttackToDB`
(`INSERT INTO _attacks (timestamp, source_ip, ...) VALUES (?, (SELECT id FROM
_dict_source_ips WHERE value = ?), ...)`).  The statement only reads the
dictionary tables; a value absent from its dictionary makes the subquery
NULL, and the NOT NULL constraints of `_attacks` then reject the row.  A row
equal on the whole 7-tuple violates the unique index `idx_attacks_unique`
created by migration 6.  Otherwise the row is appended. -/
def runInsertAttack (db : DBState) (a : Attack) : Except String DBState :=
  match insertTupleIds db a with
  | none => Except.error "NOT NULL constraint failed: _attacks"
  | some row =>
    if db.attacks.contains row then Except.error "UNIQUE constraint failed: _attacks"
    else Except.ok { db with attacks := db.attacks ++ [row] }

/-- The outcome of `saveAttackToDB`: Go `nil`, the sentinel
`ErrDuplicateAttack`, or any other error. -/
inductive SaveResult where
  | ok : SaveResult
  | duplicateAttack : SaveResult
  | dbError : String → SaveResult
  deriving DecidableEq, Repr

/-- Model of `saveAttackToDB`, line for line: skip when `test_mode` is set
(the `attack == nil` guard has no counterpart for a Lean value); run the
duplicate-check query and roll back on its error; roll back returning
`ErrDuplicateAttack` when the count is positive; otherwise run the insert and
commit.  The mutex serialises the whole section, so the transaction is
modelled as a pure state transformation; a rollback returns the original
state.  Commit itself is modelled as succeeding (its failure branch wraps an
I/O fault outside this model). -/
def saveAttackToDB (db : DBState) (a : Attack) : SaveResult × DBState :=
  if a.testMode then (SaveResult.ok, db)
  else
    match runDupCheck db a with
    | Except.error e => (SaveResult.dbError ("could not check for duplicate attack: " ++ e), db)
    | Except.ok count =>
      if count > 0 then (SaveResult.duplicateAttack, db)
      else
        match runInsertAttack db a with
        | Except.error e => (SaveResult.dbError ("could not execute insert statement: " ++ e), db)
        | Except.ok db2 => (SaveResult.ok, db2)

/-- The example attack of the specification's scenario (a timestamp of
2024-01-01T10:00:00Z, which is 1704103200 seconds since the epoch). -/
def exampleAttack : Attack :=
  { sourceIP := "1.2.3.4"
  , destinationIP := "5.6.7.8"
  , username := "root"
  , password := "123456"
  , attackTimestamp := { unixNano := 1704103200000000000 }
  , evidence := "SSH-2.0-test"
  , attackType := "ssh-bruteforce"
  , testMode := false }

/-- A datastore fresh after the migration chain: empty dictionaries, no fact
rows. -/
def exampleDB : DBState :=
  { dictSourceIps := { rows := [] }
  , dictDestinationIps := { rows := [] }
  , dictUsernames := { rows := [] }
  , dictPasswords := { rows := [] }
  , dictAttackTypes := { rows := [] }
  , dictEvidences := { rows := [] }
  , attacks := [] }

/-- A datastore whose dictionaries already contain the example attack's six
values (as migration 6 would have populated them from historical rows). -/
def seededDB : DBState :=
  { dictSourceIps := { rows := [(1, "1.2.3.4")] }
  , dictDestinationIps := { rows := [(1, "5.6.7.8")] }
  , dictUsernames := { rows := [(1, "root")] }
  , dictPasswords := { rows := [(1, "123456")] }
  , dictAttackTypes := { rows := [(1, "ssh-bruteforce")] }
  , dictEvidences := { rows := [(1, "SSH-2.0-test")] }
  , attacks := [] }

/-- Go `strings.Trim(s, cutset)` for the one-character cutset of a double
quote, as used by `FlexibleTime.UnmarshalJSON`: drops every leading and
trailing quote character. -/
def goTrimQuotes (s : String) : String :=
  String.mk (((s.data.dropWhile (fun c => c == '"')).reverse.dropWhile (fun c => c == '"')).reverse)

/-- Model of `FlexibleTime.UnmarshalJSON`.  The two `time` library calls are
parameters: `parseRFC3339Nano` stands for `time.Parse(time.RFC3339Nano, s)`
and `parseNaiveLocal` for
`time.ParseInLocation("2006-01-02T15:04:05.999999", s, time.Local)`, each
returning `none` exactly when the Go call returns an error.  `prev` is the
receiver's current value, which a JSON `null` leaves untouched.  The final
`t.Local()` of the source changes only the display location of the instant,
so it is the identity here.  The Go error message additionally wraps the
second parse error after a colon; the stable text modelled here is the part
the source formats itself. -/
def flexibleTimeUnmarshalJSON (parseRFC3339Nano : String → Option GoTime)
    (parseNaiveLocal : String → Option GoTime) (prev : GoTime) (b : String) :
    Except String GoTime :=
  let s := goTrimQuotes b
  if s = "null" then Except.ok prev
  else
    match parseRFC3339Nano s with
    | some t => Except.ok t
    | none =>
      match parseNaiveLocal s with
      | some t => Except.ok t
      | none =>
        Except.error ("failed to parse time \x22" ++ s ++ "\x22 with any known layout")

/-- Model of a Go `url.URL` as produced by `url.Parse`.  Only the raw text is
represented; the handler recombines it with a path by reference resolution. -/
structure URL where
  raw : String
  deriving DecidableEq, Repr

/-- Partial model of Go `url.Parse`: it rejects URLs containing ASCII control
characters and accepts the strings this program deals with (`url.Parse` is
extremely permissive; the further rare failure modes, such as malformed
escapes, do not occur for the inputs of any claim and are not modelled). -/
def goURLParse (s : String) : Except String URL :=
  if s.data.any (fun c => c.val < 32 || c.val == 127) then
    Except.error "net/url: invalid control character in URL"
  else Except.ok { raw := s }

/-- The `Config` struct of the source. -/
structure Config where
  listenAddress : String
  databasePath : String
  proxiedURL : URL
  logRequests : Bool
  debugLog : Bool
  doNotSubmitAttacks : Bool
  deriving DecidableEq, Repr

/-- Go `os.LookupEnv` wrapped by the source's `getEnv`: the environment is a
partial map from variable names to values; an unset variable yields the
fallback. -/
def getEnv (env : String → Option String) (key fallback : String) : String :=
  match env key with
  | some v => v
  | none => fallback

/-- Model of Go `strings.ToLower` (ASCII; the inputs compared against are
ASCII literals). -/
def strLower (s : String) : String :=
  String.mk (s.data.map Char.toLower)

/-- The source's `strToBool`. -/
def strToBool (s : String) : Bool :=
  let t := strLower (goTrimSpace s)
  t == "1" || t == "true" || t == "t" || t == "yes" || t == "y"

/-- The outcome of the configuration phase of `main`: either `log.Fatal`
(process aborts before the server ever accepts a connection) or a completed
`Config` with which `main` goes on to open the datastore, run migrations and
listen. -/
inductive StartupResult where
  | fatal : String → StartupResult
  | started : Config → StartupResult
  deriving DecidableEq, Repr

/-- The configuration phase of `main`, line for line: read
`NETWATCH_COLLECTOR_PROXIED_URL` with the built-in fallback
`https://api.netwatch.team`; fatal if the resulting string is empty; fatal if
it does not parse; otherwise build the `Config` from the remaining
environment variables. -/
def resolveConfig (env : String → Option String) : StartupResult :=
  let proxiedURLString := getEnv env "NETWATCH_COLLECTOR_PROXIED_URL" "https://api.netwatch.team"
  if proxiedURLString = "" then
    StartupResult.fatal "Environment variable NETWATCH_COLLECTOR_PROXIED_URL must be set!"
  else
    match goURLParse proxiedURLString with
    | Except.error e =>
      StartupResult.fatal ("Could not parse NETWATCH_COLLECTOR_PROXIED_URL: " ++ e)
    | Except.ok parsedURL =>
      let logRequests := strToBool (getEnv env "NETWATCH_PROXY_LOG_REQUESTS" "false")
      let debugLog := strToBool (getEnv env "NETWATCH_PROXY_DEBUG_LOG" "false")
      let doNotSubmitAttacks :=
        strToBool (getEnv env "NETWATCH_PROXY_DO_NOT_SUBMIT_ATTACKS" "false")
      StartupResult.started
        { listenAddress := getEnv env "NETWATCH_PROXY_LISTEN_ADDRESS" ":8161"
        , databasePath := getEnv env "NETWATCH_PROXY_DB_PATH" "/app/data/attacks.db"
        , proxiedURL := parsedURL
        , logRequests := logRequests || debugLog
        , debugLog := debugLog
        , doNotSubmitAttacks := doNotSubmitAttacks }

/-- An inbound or forwarded HTTP request: method, URL path, full target URL
text (only meaningful on forwarded requests), header multimap, and the
buffered body bytes (a `String` models the byte sequence; the program never
decodes it as text). -/
structure HTTPRequest where
  method : String
  path : String
  url : String
  headers : List (String × List String)
  body : String
  deriving DecidableEq, Repr

/-- An HTTP response as the handler sees and writes it. -/
structure HTTPResponse where
  statusCode : Nat
  headers : List (String × List String)
  body : String
  deriving DecidableEq, Repr

/-- The canned response built in suppressed-submission mode; `now` stands for
`time.Now().UTC().Format(http.TimeFormat)`. -/
def mockupResponse (now : String) : HTTPResponse :=
  { statusCode := 200
  , headers :=
      [ ("Content-Length", ["20"])
      , ("Server", ["SSH-AttackPod-Proxy/1.0"])
      , ("Date", [now])
      , ("Content-Type", ["application/json"]) ]
  , body := "\x7b\"status\":\"success\"\x7d" }

/-- The response `http.Error(w, "Bad Gateway", http.StatusBadGateway)`
produces when forwarding fails. -/
def badGatewayResponse : HTTPResponse :=
  { statusCode := 502
  , headers :=
      [ ("Content-Type", ["text/plain; charset=utf-8"])
      , ("X-Content-Type-Options", ["nosniff"]) ]
  , body := "Bad Gateway\n" }

/-- Everything one call of `handleProxyRequest` produces: the datastore after
the interception side effect, whether `client.Do` was invoked, the request
handed to it if so, and the response written back to the sensor. -/
structure HandleResult where
  db : DBState
  upstreamCalled : Bool
  sent : Option HTTPRequest
  response : HTTPResponse
  deriving DecidableEq, Repr

/-- Model of `handleProxyRequest`, line for line.  `decode` stands for
`json.Unmarshal` into an `Attack` (`none` branch of the `Except` when Go
returns an error), `upstream` for `client.Do` (`none` when the HTTP client
returns an error), and `now` for the current formatted time used by the
mockup response.  The body has already been buffered (`io.ReadAll`); the
read-error branch concerns a failing network stream and has no counterpart
for a value.  Interception: on `POST /add_attack` the body is decoded and
`saveAttackToDB` called; a decode failure, a save error and the duplicate
outcome are logged and otherwise discarded.  The forwarded request keeps the
original method, a clone of the original headers, and the same body, with the
URL rewritten to the configured upstream (reference resolution modelled as
concatenating base and path).  In suppressed-submission mode a request whose
path is the attack endpoint is answered with the mockup response and
`client.Do` is never invoked; otherwise the upstream answer (or Bad Gateway
on error) is copied back. -/
def handleProxyRequest (cfg : Config) (decode : String → Except String Attack)
    (upstream : HTTPRequest → Option HTTPResponse) (now : String)
    (db : DBState) (r : HTTPRequest) : HandleResult :=
  let body := r.body
  let dbAfter :=
    if r.method = "POST" ∧ r.path = "/add_attack" then
      match decode body with
      | Except.error _ => db
      | Except.ok attack => (saveAttackToDB db attack).2
    else db
  let targetURL := cfg.proxiedURL.raw ++ r.path
  let proxyReq : HTTPRequest :=
    { method := r.method, path := r.path, url := targetURL, headers := r.headers, body := body }
  if cfg.doNotSubmitAttacks = true ∧ r.path = "/add_attack" then
    { db := dbAfter, upstreamCalled := false, sent := none, response := mockupResponse now }
  else
    match upstream proxyReq with
    | none =>
      { db := dbAfter, upstreamCalled := true, sent := some proxyReq
      , response := badGatewayResponse }
    | some resp =>
      { db := dbAfter, upstreamCalled := true, sent := some proxyReq, response := resp }

/-- A migration of the source's `migrations` list: a version number and the
effect of executing its SQL script on the schema-plus-data state, which
either produces the new state or fails (the state type is abstract; the
engine never inspects it). -/
structure Migration (σ : Type) where
  version : Int
  run : σ → Except String σ

/-- The versions of the source's `migrations` list, in list order. -/
def migrationVersions : List Int := [1, 2, 3, 4, 5, 6]

/-- The persisted datastore as the migration engine sees it: the
`PRAGMA user_version` counter and the schema-plus-data state. -/
structure MigDB (σ : Type) where
  userVersion : Int
  schema : σ

/-- What one call of `runMigrations` leaves behind: the persisted datastore,
the returned error if any (which `initDB` turns into `log.Fatalf`), and
whether the VACUUM pass was issued. -/
structure MigResult (σ : Type) where
  db : MigDB σ
  err : Option String
  vacuumRan : Bool

/-- One migration step as a transaction: execute the script, set
`PRAGMA user_version` to the migration's version, commit.  `commitOk` is the
commit oracle (a failing `tx.Commit`, or equivalently a failing
`PRAGMA user_version` write, for that version); SQLite rolls the transaction
back on failure, so a failed step leaves the state untouched (`none`). -/
def applyMigStep {σ : Type} (commitOk : Int → Bool) (m : Migration σ) (db : MigDB σ) :
    Option (MigDB σ) :=
  match m.run db.schema with
  | Except.error _ => none
  | Except.ok s2 => if commitOk m.version then some { userVersion := m.version, schema := s2 } else none

/-- Applies a list of migrations step by step, each one atomically; `none` as
soon as any step fails. -/
def applyRun {σ : Type} (commitOk : Int → Bool) : List (Migration σ) → MigDB σ → Option (MigDB σ)
  | [], db => some db
  | m :: rest, db =>
    match applyMigStep commitOk m db with
    | none => none
    | some db2 => applyRun commitOk rest db2

/-- The loop of `runMigrations`, line for line: `cur` is the local
`currentVersion` variable (initialised from `PRAGMA user_version`, updated
after each commit), `migrated` the flag deciding the VACUUM pass.  A
migration is attempted exactly when `cur` is strictly below its version; a
script error or a commit failure aborts the run immediately with an error,
the transaction having been rolled back.  After the loop, VACUUM is issued
only if at least one migration ran (its own failure is only logged, and it
does not change the logical state, so only the fact that it ran is
recorded). -/
def runMigrationsFrom {σ : Type} (commitOk : Int → Bool) :
    List (Migration σ) → Int → MigDB σ → Bool → MigResult σ
  | [], _, db, migrated => { db := db, err := none, vacuumRan := migrated }
  | m :: rest, cur, db, migrated =>
    if cur < m.version then
      match m.run db.schema with
      | Except.error e =>
        { db := db
        , err := some ("could not execute migration to version " ++ toString m.version ++ ": " ++ e)
        , vacuumRan := false }
      | Except.ok s2 =>
        if commitOk m.version then
          runMigrationsFrom commitOk rest m.version { userVersion := m.version, schema := s2 } true
        else
          { db := db
          , err := some ("could not commit transaction for migration to version " ++
              toString m.version)
          , vacuumRan := false }
    else runMigrationsFrom commitOk rest cur db migrated

/-- Model of `runMigrations`: read `PRAGMA user_version` and run the loop. -/
def runMigrations {σ : Type} (commitOk : Int → Bool) (migs : List (Migration σ)) (db : MigDB σ) :
    MigResult σ :=
  runMigrationsFrom commitOk migs db.userVersion db false

/-- The version `PRAGMA user_version` holds after committing the migrations
of a list in order, starting from an initial value: the version of the last
one, or the initial value for an empty list. -/
def lastVersion {σ : Type} (pre : List (Migration σ)) (v0 : Int) : Int :=
  pre.foldl (fun _ m => m.version) v0

/-- The example submission payload of the specification's scenario, byte for
byte. -/
def exampleBody : String :=
  "\x7b\"source_ip\":\"1.2.3.4\",\"destination_ip\":\"5.6.7.8\",\"username\":\"root\"," ++
  "\"password\":\"123456\",\"attack_timestamp\":\"2024-01-01T10:00:00Z\"," ++
  "\"evidence\":\"SSH-2.0-test\",\"attack_type\":\"ssh-bruteforce\",\"test_mode\":false\x7d"

/-- A concrete stand-in for `json.Unmarshal` that recognises exactly the
example payload. -/
def demoDecode : String → Except String Attack :=
  fun b => if b = exampleBody then Except.ok exampleAttack else Except.error "invalid character"

/-- A concrete upstream that always answers 204, to make visible when a
response did not come from it. -/
def demoUpstream : HTTPRequest → Option HTTPResponse :=
  fun _ => some { statusCode := 204, headers := [], body := "upstream" }

/-- A configuration with suppressed-submission mode enabled. -/
def demoConfig : Config :=
  { listenAddress := ":8161"
  , databasePath := "/app/data/attacks.db"
  , proxiedURL := { raw := "https://api.netwatch.team" }
  , logRequests := false
  , debugLog := false
  , doNotSubmitAttacks := true }

/-- The same configuration with suppressed-submission mode disabled. -/
def forwardConfig : Config :=
  { demoConfig with doNotSubmitAttacks := false }

/-- A POST submission of the example payload. -/
def examplePostRequest : HTTPRequest :=
  { method := "POST"
  , path := "/add_attack"
  , url := "/add_attack"
  , headers := [("Content-Type", ["application/json"])]
  , body := exampleBody }

/-- A GET request to the submission path (as the claim about path-only
suppression matching considers). -/
def exampleGetRequest : HTTPRequest :=
  { method := "GET"
  , path := "/add_attack"
  , url := "/add_attack"
  , headers := []
  , body := "" }

/-- An environment in which no variable is set. -/
def emptyEnv : String → Option String := fun _ => none

/-- An environment in which the upstream URL variable is set to the empty
string. -/
def emptyStrEnv : String → Option String :=
  fun k => if k = "NETWATCH_COLLECTOR_PROXIED_URL" then some "" else none

/-- A concrete stand-in for the RFC3339 parse recognising the example
timestamp (2024-01-01T10:00:00Z, 1704103200 s since the epoch). -/
def demoParseRFC : String → Option GoTime :=
  fun s => if s = "2024-01-01T10:00:00Z" then some { unixNano := 1704103200000000000 } else none

/-- A concrete stand-in for the naive-layout parse that never succeeds. -/
def demoParseNaive : String → Option GoTime := fun _ => none

/-- Demonstration migrations over a counter state, one per source migration
version, each script incrementing the counter. -/
def demoMigs : List (Migration Int) :=
  migrationVersions.map (fun v => { version := v, run := fun s => Except.ok (s + 1) })

/-- A commit oracle that fails the commit of migration version 4. -/
def demoCommitFailAt4 : Int → Bool := fun v => decide (v < 4)

/-- A commit oracle under which every commit succeeds. -/
def demoCommitAll : Int → Bool := fun _ => true

/-- A fresh migration datastore: version 0, counter state 0. -/
def demoDB : MigDB Int := { userVersion := 0, schema := 0 }

/-- C1 (code-bug evidence): the duplicate-check statement of
`saveAttackToDB` is malformed (`ANS` for `AND`), so every non-test
submission — the very first included — returns the wrapped storage error and
leaves the datastore untouched; no fact row is ever inserted and no
resubmission is ever classified as the duplicate outcome.  This holds both on
a fresh datastore and on one whose dictionaries already contain the attack's
values. -/
theorem c1_save_always_fails_dupcheck :
    (saveAttackToDB exampleDB exampleAttack).1 =
      SaveResult.dbError "could not check for duplicate attack: near \x22ANS\x22: syntax error" ∧
    (saveAttackToDB exampleDB exampleAttack).2 = exampleDB ∧
    (saveAttackToDB seededDB exampleAttack).1 =
      SaveResult.dbError "could not check for duplicate attack: near \x22ANS\x22: syntax error" ∧
    (saveAttackToDB seededDB exampleAttack).2.attacks.length = 0 := by
  refine ⟨?_, ?_, ?_, ?_⟩ <;> decide

/-- C2 (code-bug evidence): resolution never allocates dictionary rows.  On a
fresh datastore the insert statement itself (executed directly, past the
broken duplicate check) fails the NOT NULL constraints because the lookup
subqueries return NULL for never-seen values, and `saveAttackToDB` leaves the
state unchanged; on a datastore whose dictionaries already hold the values,
the insert reuses the existing ids and adds no dictionary row. -/
theorem c2_no_dictionary_allocation :
    runInsertAttack exampleDB exampleAttack =
      Except.error "NOT NULL constraint failed: _attacks" ∧
    (saveAttackToDB exampleDB exampleAttack).2 = exampleDB ∧
    runInsertAttack seededDB exampleAttack =
      Except.ok { seededDB with attacks := [⟨1704103200000, 1, 1, 1, 1, 1, 1⟩] } := by
  refine ⟨rfl, by decide, rfl⟩

/-- C9: a submission whose `test_mode` field is true is skipped before any
transaction is opened: `saveAttackToDB` reports success and the datastore —
fact table and all six dictionaries — is exactly the input state. -/
theorem c9_test_mode_noop (db : DBState) (a : Attack) (h : a.testMode = true) :
    saveAttackToDB db a = (SaveResult.ok, db) := by
  simp [saveAttackToDB, h]

/-- Witness for C9 at the example attack with `test_mode` set. -/
theorem c9_test_mode_noop_witness :
    ({ exampleAttack with testMode := true } : Attack).testMode = true ∧
    saveAttackToDB seededDB { exampleAttack with testMode := true } = (SaveResult.ok, seededDB) :=
  ⟨rfl, c9_test_mode_noop seededDB { exampleAttack with testMode := true } rfl⟩

/-- C7 (code-bug evidence): with suppressed-submission mode enabled, a POST
to the submission path is answered locally with status 200, the minimal JSON
success body and a Content-Type of application/json, and the upstream is
never contacted — but the submitted attack is NOT persisted: the save attempt
fails on the malformed duplicate-check statement, so the datastore is
unchanged even though its dictionaries could resolve every value. -/
theorem c7_suppressed_mode_response :
    (handleProxyRequest demoConfig demoDecode demoUpstream "now" seededDB
        examplePostRequest).upstreamCalled = false ∧
    (handleProxyRequest demoConfig demoDecode demoUpstream "now" seededDB
        examplePostRequest).sent = none ∧
    (handleProxyRequest demoConfig demoDecode demoUpstream "now" seededDB
        examplePostRequest).response.statusCode = 200 ∧
    (handleProxyRequest demoConfig demoDecode demoUpstream "now" seededDB
        examplePostRequest).response.body = "\x7b\"status\":\"success\"\x7d" ∧
    ("Content-Type", ["application/json"]) ∈
      (handleProxyRequest demoConfig demoDecode demoUpstream "now" seededDB
        examplePostRequest).response.headers ∧
    (handleProxyRequest demoConfig demoDecode demoUpstream "now" seededDB
        examplePostRequest).db = seededDB := by
  refine ⟨?_, ?_, ?_, ?_, ?_, ?_⟩ <;> decide

/-- C10: suppressed-submission matching is by path alone.  Whenever
suppression is enabled and the path is the submission endpoint, for any
method the handler answers with the mockup response and never invokes the
upstream client; and for any method other than POST the interception step
does not run, so the datastore is untouched. -/
theorem c10_suppression_by_path_only (cfg : Config) (decode : String → Except String Attack)
    (upstream : HTTPRequest → Option HTTPResponse) (now : String) (db : DBState)
    (r : HTTPRequest) (hs : cfg.doNotSubmitAttacks = true) (hp : r.path = "/add_attack") :
    (handleProxyRequest cfg decode upstream now db r).upstreamCalled = false ∧
    (handleProxyRequest cfg decode upstream now db r).sent = none ∧
    (handleProxyRequest cfg decode upstream now db r).response = mockupResponse now ∧
    (r.method ≠ "POST" → (handleProxyRequest cfg decode upstream now db r).db = db) := by
  refine ⟨?_, ?_, ?_, ?_⟩
  · simp [handleProxyRequest, hs, hp]
  · simp [handleProxyRequest, hs, hp]
  · simp [handleProxyRequest, hs, hp]
  · intro hm
    simp [handleProxyRequest, hs, hp, hm]

/-- Witness for C10 at a GET request with suppression enabled. -/
theorem c10_suppression_by_path_only_witness :
    demoConfig.doNotSubmitAttacks = true ∧ exampleGetRequest.path = "/add_attack" ∧
    ((handleProxyRequest demoConfig demoDecode demoUpstream "later" exampleDB
        exampleGetRequest).upstreamCalled = false ∧
      (handleProxyRequest demoConfig demoDecode demoUpstream "later" exampleDB
        exampleGetRequest).sent = none ∧
      (handleProxyRequest demoConfig demoDecode demoUpstream "later" exampleDB
        exampleGetRequest).response = mockupResponse "later" ∧
      (exampleGetRequest.method ≠ "POST" →
        (handleProxyRequest demoConfig demoDecode demoUpstream "later" exampleDB
          exampleGetRequest).db = exampleDB)) :=
  ⟨rfl, rfl,
    c10_suppression_by_path_only demoConfig demoDecode demoUpstream "later" exampleDB
      exampleGetRequest rfl rfl⟩

/-- C8 (counterexample): with the environment variable entirely unset, the
configuration phase does not fail — it substitutes the built-in default
upstream URL and proceeds to start, contradicting the claim that an absent
value is a fatal startup error. -/
theorem c8_counterexample_unset_env_starts :
    resolveConfig emptyEnv =
      StartupResult.started
        { listenAddress := ":8161"
        , databasePath := "/app/data/attacks.db"
        , proxiedURL := { raw := "https://api.netwatch.team" }
        , logRequests := false
        , debugLog := false
        , doNotSubmitAttacks := false } := by
  decide

/-- C6: the interception outcome never changes what is forwarded or
returned.  The response, the forwarded request and whether the upstream was
contacted are identical across any two datastore states and any two decode
functions (so a decode failure, a storage error and the duplicate outcome all
leave them untouched); and whenever a request is handed to the upstream
client it carries the original method, the cloned original headers and the
byte-identical buffered body. -/
theorem c6_interception_never_alters_forwarding (cfg : Config)
    (dec1 dec2 : String → Except String Attack) (upstream : HTTPRequest → Option HTTPResponse)
    (now : String) (db1 db2 : DBState) (r : HTTPRequest) :
    (handleProxyRequest cfg dec1 upstream now db1 r).response =
      (handleProxyRequest cfg dec2 upstream now db2 r).response ∧
    (handleProxyRequest cfg dec1 upstream now db1 r).sent =
      (handleProxyRequest cfg dec2 upstream now db2 r).sent ∧
    (handleProxyRequest cfg dec1 upstream now db1 r).upstreamCalled =
      (handleProxyRequest cfg dec2 upstream now db2 r).upstreamCalled ∧
    (∀ q, (handleProxyRequest cfg dec1 upstream now db1 r).sent = some q →
      q.method = r.method ∧ q.headers = r.headers ∧ q.body = r.body) := by
  unfold handleProxyRequest
  by_cases hsup : cfg.doNotSubmitAttacks = true ∧ r.path = "/add_attack"
  · simp [hsup]
  · simp only [if_neg hsup]
    rcases hup : upstream
        { method := r.method, path := r.path, url := cfg.proxiedURL.raw ++ r.path
        , headers := r.headers, body := r.body } with _ | resp
    · simp [hup]
    · simp [hup]

/-- Witness for C6 at concrete values (distinct decode functions and
datastore states on the two sides). -/
theorem c6_interception_never_alters_forwarding_witness :
    (handleProxyRequest forwardConfig demoDecode demoUpstream "now" seededDB
        examplePostRequest).response =
      (handleProxyRequest forwardConfig (fun _ => Except.error "boom") demoUpstream "now"
        exampleDB examplePostRequest).response ∧
    (handleProxyRequest forwardConfig demoDecode demoUpstream "now" seededDB
        examplePostRequest).sent =
      (handleProxyRequest forwardConfig (fun _ => Except.error "boom") demoUpstream "now"
        exampleDB examplePostRequest).sent ∧
    (handleProxyRequest forwardConfig demoDecode demoUpstream "now" seededDB
        examplePostRequest).upstreamCalled =
      (handleProxyRequest forwardConfig (fun _ => Except.error "boom") demoUpstream "now"
        exampleDB examplePostRequest).upstreamCalled ∧
    (∀ q, (handleProxyRequest forwardConfig demoDecode demoUpstream "now" seededDB
        examplePostRequest).sent = some q →
      q.method = examplePostRequest.method ∧ q.headers = examplePostRequest.headers ∧
        q.body = examplePostRequest.body) :=
  c6_interception_never_alters_forwarding forwardConfig demoDecode
    (fun _ => Except.error "boom") demoUpstream "now" seededDB exampleDB examplePostRequest

/-- Helper: any row `bindIds` produces carries the timestamp it was given. -/
theorem bindIds_timestamp (s d u p t e : Option Nat) (ts : Int) (row : FactRow)
    (h : bindIds s d u p t e ts = some row) : row.timestamp = ts := by
  rcases s with _ | s <;> rcases d with _ | d <;> rcases u with _ | u <;>
    rcases p with _ | p <;> rcases t with _ | t <;> rcases e with _ | e <;>
    simp [bindIds] at h
  subst h
  rfl

/-- C5: the timestamp decode tolerates a JSON null as a no-op; it tries the
RFC3339 layout first and the naive local layout only on its failure; it
errors exactly when the value is non-null and both layouts fail, with a
message naming the unparseable input; and a row the insert statement stores
carries the instant as integer milliseconds since the Unix epoch. -/
theorem c5_flexible_time_layouts (p1 p2 : String → Option GoTime) (prev : GoTime) (b : String) :
    (goTrimQuotes b = "null" → flexibleTimeUnmarshalJSON p1 p2 prev b = Except.ok prev) ∧
    (∀ t, goTrimQuotes b ≠ "null" → p1 (goTrimQuotes b) = some t →
      flexibleTimeUnmarshalJSON p1 p2 prev b = Except.ok t) ∧
    (∀ t, goTrimQuotes b ≠ "null" → p1 (goTrimQuotes b) = none →
      p2 (goTrimQuotes b) = some t →
      flexibleTimeUnmarshalJSON p1 p2 prev b = Except.ok t) ∧
    ((∃ e, flexibleTimeUnmarshalJSON p1 p2 prev b = Except.error e) ↔
      goTrimQuotes b ≠ "null" ∧ p1 (goTrimQuotes b) = none ∧ p2 (goTrimQuotes b) = none) ∧
    (∀ e, flexibleTimeUnmarshalJSON p1 p2 prev b = Except.error e →
      e = "failed to parse time \x22" ++ goTrimQuotes b ++ "\x22 with any known layout") ∧
    (∀ (db db2 : DBState) (a : Attack), runInsertAttack db a = Except.ok db2 →
      ∃ row, db2.attacks = db.attacks ++ [row] ∧
        row.timestamp = a.attackTimestamp.unixMilli) := by
  refine ⟨?_, ?_, ?_, ⟨?_, ?_⟩, ?_, ?_⟩
  · intro hnull
    simp [flexibleTimeUnmarshalJSON, hnull]
  · intro t hnull h1
    simp [flexibleTimeUnmarshalJSON, hnull, h1]
  · intro t hnull h1 h2
    simp [flexibleTimeUnmarshalJSON, hnull, h1, h2]
  · rintro ⟨e, he⟩
    by_cases hnull : goTrimQuotes b = "null"
    · simp [flexibleTimeUnmarshalJSON, hnull] at he
    rcases h1 : p1 (goTrimQuotes b) with _ | t
    · rcases h2 : p2 (goTrimQuotes b) with _ | t2
      · exact ⟨hnull, rfl, rfl⟩
      · simp [flexibleTimeUnmarshalJSON, hnull, h1, h2] at he
    · simp [flexibleTimeUnmarshalJSON, hnull, h1] at he
  · rintro ⟨hnull, h1, h2⟩
    exact ⟨"failed to parse time \x22" ++ goTrimQuotes b ++ "\x22 with any known layout",
      by simp [flexibleTimeUnmarshalJSON, hnull, h1, h2]⟩
  · intro e he
    by_cases hnull : goTrimQuotes b = "null"
    · simp [flexibleTimeUnmarshalJSON, hnull] at he
    rcases h1 : p1 (goTrimQuotes b) with _ | t
    · rcases h2 : p2 (goTrimQuotes b) with _ | t2
      · simp [flexibleTimeUnmarshalJSON, hnull, h1, h2] at he
        exact he.symm
      · simp [flexibleTimeUnmarshalJSON, hnull, h1, h2] at he
    · simp [flexibleTimeUnmarshalJSON, hnull, h1] at he
  · intro db db2 a h
    unfold runInsertAttack at h
    rcases hids : insertTupleIds db a with _ | row
    · simp only [hids] at h
      simp at h
    · simp only [hids] at h
      split at h
      · simp at h
      · simp at h
        refine ⟨row, ?_, bindIds_timestamp _ _ _ _ _ _ _ _ hids⟩
        rw [← h]

/-- Witness for C5 at the example timestamp string (quoted JSON value,
recognised by the RFC3339 stand-in). -/
theorem c5_flexible_time_layouts_witness :
    flexibleTimeUnmarshalJSON demoParseRFC demoParseNaive { unixNano := 0 }
        "\"2024-01-01T10:00:00Z\"" =
      Except.ok { unixNano := 1704103200000000000 } :=
  (c5_flexible_time_layouts demoParseRFC demoParseNaive { unixNano := 0 }
      "\"2024-01-01T10:00:00Z\"").2.1 { unixNano := 1704103200000000000 }
    (by decide) (by decide)

/-- C8 (amended): an upstream URL variable set to the empty string is fatal;
a set but unparseable value is fatal; an unset variable substitutes the
built-in default upstream URL and startup proceeds; and any startup that
proceeds did so with a non-empty, successfully parsed upstream URL. -/
theorem c8_startup_url_gate (env : String → Option String) :
    (env "NETWATCH_COLLECTOR_PROXIED_URL" = some "" →
      resolveConfig env =
        StartupResult.fatal "Environment variable NETWATCH_COLLECTOR_PROXIED_URL must be set!") ∧
    (∀ s e, env "NETWATCH_COLLECTOR_PROXIED_URL" = some s → goURLParse s = Except.error e →
      resolveConfig env =
        StartupResult.fatal ("Could not parse NETWATCH_COLLECTOR_PROXIED_URL: " ++ e)) ∧
    (env "NETWATCH_COLLECTOR_PROXIED_URL" = none →
      ∃ cfg, resolveConfig env = StartupResult.started cfg ∧
        cfg.proxiedURL = { raw := "https://api.netwatch.team" }) ∧
    (∀ cfg, resolveConfig env = StartupResult.started cfg →
      cfg.proxiedURL.raw ≠ "" ∧ goURLParse cfg.proxiedURL.raw = Except.ok cfg.proxiedURL) := by
  refine ⟨?_, ?_, ?_, ?_⟩
  · intro h
    simp [resolveConfig, getEnv, h]
  · intro s e hs hp
    by_cases hempty : s = ""
    · subst hempty
      simp [goURLParse] at hp
    · simp [resolveConfig, getEnv, hs, hempty, hp]
  · intro h
    have hget : getEnv env "NETWATCH_COLLECTOR_PROXIED_URL" "https://api.netwatch.team" =
        "https://api.netwatch.team" := by
      simp [getEnv, h]
    refine ⟨{ listenAddress := getEnv env "NETWATCH_PROXY_LISTEN_ADDRESS" ":8161"
            , databasePath := getEnv env "NETWATCH_PROXY_DB_PATH" "/app/data/attacks.db"
            , proxiedURL := { raw := "https://api.netwatch.team" }
            , logRequests := strToBool (getEnv env "NETWATCH_PROXY_LOG_REQUESTS" "false") ||
                strToBool (getEnv env "NETWATCH_PROXY_DEBUG_LOG" "false")
            , debugLog := strToBool (getEnv env "NETWATCH_PROXY_DEBUG_LOG" "false")
            , doNotSubmitAttacks :=
                strToBool (getEnv env "NETWATCH_PROXY_DO_NOT_SUBMIT_ATTACKS" "false") }, ?_, rfl⟩
    unfold resolveConfig
    rw [hget]
    rfl
  · intro cfg h
    unfold resolveConfig at h
    by_cases hempty : getEnv env "NETWATCH_COLLECTOR_PROXIED_URL" "https://api.netwatch.team" = ""
    · rw [if_pos hempty] at h
      simp at h
    · rw [if_neg hempty] at h
      rcases hp : goURLParse (getEnv env "NETWATCH_COLLECTOR_PROXIED_URL"
          "https://api.netwatch.team") with e | u
      · rw [hp] at h
        simp at h
      · rw [hp] at h
        simp at h
        unfold goURLParse at hp
        by_cases hctl : (getEnv env "NETWATCH_COLLECTOR_PROXIED_URL"
            "https://api.netwatch.team").data.any (fun c => c.val < 32 || c.val == 127) = true
        · rw [if_pos hctl] at hp
          simp at hp
        · rw [if_neg hctl] at hp
          simp at hp
          rw [← h, ← hp]
          exact ⟨hempty, by simp [goURLParse, hctl]⟩

/-- Witness for C8 at an environment whose upstream URL variable is the
empty string (the fatal branch the amended claim keeps). -/
theorem c8_startup_url_gate_witness :
    resolveConfig emptyStrEnv =
      StartupResult.fatal "Environment variable NETWATCH_COLLECTOR_PROXIED_URL must be set!" :=
  (c8_startup_url_gate emptyStrEnv).1 rfl

/-- Helper: the migration loop applies a maximal successful prefix of the due
migrations, each step atomically (script plus version counter together), and
returns an error exactly when a step remains; the persisted version is the
version of the last committed migration. -/
theorem runFrom_atomic {σ : Type} (commitOk : Int → Bool) :
    ∀ (migs : List (Migration σ)) (cur : Int) (db : MigDB σ) (migrated : Bool),
      migs.Pairwise (fun m1 m2 => m1.version < m2.version) →
      ∃ pre post,
        migs.filter (fun m => decide (cur < m.version)) = pre ++ post ∧
        applyRun commitOk pre db = some (runMigrationsFrom commitOk migs cur db migrated).db ∧
        ((runMigrationsFrom commitOk migs cur db migrated).err = none ↔ post = []) ∧
        ((runMigrationsFrom commitOk migs cur db migrated).err ≠ none →
          ∃ m rest2, post = m :: rest2 ∧
            applyMigStep commitOk m (runMigrationsFrom commitOk migs cur db migrated).db = none) ∧
        (runMigrationsFrom commitOk migs cur db migrated).db.userVersion =
          lastVersion pre db.userVersion
  | [], cur, db, migrated, _ => by
    refine ⟨[], [], ?_, ?_, ?_, ?_, ?_⟩ <;>
      simp [runMigrationsFrom, applyRun, lastVersion]
  | m :: rest, cur, db, migrated, hsorted => by
    rw [List.pairwise_cons] at hsorted
    obtain ⟨hlt, hsorted2⟩ := hsorted
    by_cases hdue : cur < m.version
    · have hfilter : (m :: rest).filter (fun m2 => decide (cur < m2.version)) = m :: rest := by
        rw [List.filter_cons_of_pos (by simpa using hdue)]
        congr 1
        exact List.filter_eq_self.mpr (fun x hx => by simpa using lt_trans hdue (hlt x hx))
      rcases hrun : m.run db.schema with e | s2
      · refine ⟨[], m :: rest, by simp [hfilter], ?_, ?_, ?_, ?_⟩
        · simp [runMigrationsFrom, hdue, hrun, applyRun]
        · simp [runMigrationsFrom, hdue, hrun]
        · intro _
          refine ⟨m, rest, rfl, ?_⟩
          simp [runMigrationsFrom, hdue, hrun, applyMigStep]
        · simp [runMigrationsFrom, hdue, hrun, lastVersion]
      · by_cases hcommit : commitOk m.version = true
        · obtain ⟨pre2, post2, hsplit, happly, hiff, hfail, hver⟩ :=
            runFrom_atomic commitOk rest m.version
              { userVersion := m.version, schema := s2 } true hsorted2
          have hrest : rest.filter (fun m2 => decide (m.version < m2.version)) = rest :=
            List.filter_eq_self.mpr (fun x hx => by simpa using hlt x hx)
          have hresult : runMigrationsFrom commitOk (m :: rest) cur db migrated =
              runMigrationsFrom commitOk rest m.version
                { userVersion := m.version, schema := s2 } true := by
            simp [runMigrationsFrom, hdue, hrun, hcommit]
          rw [hrest] at hsplit
          refine ⟨m :: pre2, post2, ?_, ?_, ?_, ?_, ?_⟩
          · rw [hfilter]
            simp [hsplit]
          · rw [hresult]
            simp only [applyRun, applyMigStep, hrun, hcommit, if_pos]
            exact happly
          · rw [hresult]
            exact hiff
          · rw [hresult]
            exact hfail
          · rw [hresult, hver]
            rfl
        · refine ⟨[], m :: rest, by simp [hfilter], ?_, ?_, ?_, ?_⟩
          · simp [runMigrationsFrom, hdue, hrun, hcommit, applyRun]
          · simp [runMigrationsFrom, hdue, hrun, hcommit]
          · intro _
            refine ⟨m, rest, rfl, ?_⟩
            simp [runMigrationsFrom, hdue, hrun, hcommit, applyMigStep]
          · simp [runMigrationsFrom, hdue, hrun, hcommit, lastVersion]
    · obtain ⟨pre2, post2, hsplit, happly, hiff, hfail, hver⟩ :=
        runFrom_atomic commitOk rest cur db migrated hsorted2
      have hresult : runMigrationsFrom commitOk (m :: rest) cur db migrated =
          runMigrationsFrom commitOk rest cur db migrated := by
        simp [runMigrationsFrom, hdue]
      have hfilter : (m :: rest).filter (fun m2 => decide (cur < m2.version)) =
          rest.filter (fun m2 => decide (cur < m2.version)) :=
        List.filter_cons_of_neg (by simpa using hdue)
      exact ⟨pre2, post2, by rw [hfilter]; exact hsplit, by rw [hresult]; exact happly,
        by rw [hresult]; exact hiff, by rw [hresult]; exact hfail, by rw [hresult]; exact hver⟩

/-- C3: every run of the migration engine applies an initial segment of the
due migrations, each one atomically (schema change and version counter in one
transaction, so no migration is partially visible); a failing step (script or
commit) makes the run return an error — which startup turns into a fatal
abort — and the persisted schema version is exactly the version of the last
successfully committed migration. -/
theorem c3_migrations_atomic {σ : Type} (commitOk : Int → Bool) (migs : List (Migration σ))
    (db : MigDB σ) (hsorted : migs.Pairwise (fun m1 m2 => m1.version < m2.version)) :
    ∃ pre post,
      migs.filter (fun m => decide (db.userVersion < m.version)) = pre ++ post ∧
      applyRun commitOk pre db = some (runMigrations commitOk migs db).db ∧
      ((runMigrations commitOk migs db).err = none ↔ post = []) ∧
      ((runMigrations commitOk migs db).err ≠ none →
        ∃ m rest2, post = m :: rest2 ∧
          applyMigStep commitOk m (runMigrations commitOk migs db).db = none) ∧
      (runMigrations commitOk migs db).db.userVersion = lastVersion pre db.userVersion :=
  runFrom_atomic commitOk migs db.userVersion db false hsorted

/-- Helper: when no migration in the list is due, the loop is an identity
that reports no error and does not vacuum. -/
theorem runFrom_skip_all {σ : Type} (commitOk : Int → Bool) :
    ∀ (migs : List (Migration σ)) (cur : Int) (db : MigDB σ),
      (∀ m ∈ migs, ¬ cur < m.version) →
      runMigrationsFrom commitOk migs cur db false = { db := db, err := none, vacuumRan := false }
  | [], _, _, _ => rfl
  | m :: rest, cur, db, h => by
    have hm : ¬ cur < m.version := h m (List.mem_cons_self m rest)
    have hred : runMigrationsFrom commitOk (m :: rest) cur db false =
        runMigrationsFrom commitOk rest cur db false := by
      simp [runMigrationsFrom, hm]
    rw [hred]
    exact runFrom_skip_all commitOk rest cur db (fun x hx => h x (List.mem_cons_of_mem m hx))

/-- Helper: a successful run never lowers the version below the starting
point, and leaves it at or above the version of every migration in the
list. -/
theorem runFrom_success_bound {σ : Type} (commitOk : Int → Bool) :
    ∀ (migs : List (Migration σ)) (cur : Int) (db : MigDB σ) (migrated : Bool),
      cur ≤ db.userVersion →
      (runMigrationsFrom commitOk migs cur db migrated).err = none →
      cur ≤ (runMigrationsFrom commitOk migs cur db migrated).db.userVersion ∧
      ∀ m ∈ migs, m.version ≤ (runMigrationsFrom commitOk migs cur db migrated).db.userVersion
  | [], cur, db, migrated, hcur, _ => by
    simp [runMigrationsFrom]
    exact hcur
  | m :: rest, cur, db, migrated, hcur, herr => by
    by_cases hdue : cur < m.version
    · rcases hrun : m.run db.schema with e | s2
      · rw [show runMigrationsFrom commitOk (m :: rest) cur db migrated =
            { db := db
            , err := some ("could not execute migration to version " ++ toString m.version ++
                ": " ++ e)
            , vacuumRan := false } from by simp [runMigrationsFrom, hdue, hrun]] at herr
        simp at herr
      · by_cases hcommit : commitOk m.version = true
        · have hred : runMigrationsFrom commitOk (m :: rest) cur db migrated =
              runMigrationsFrom commitOk rest m.version
                { userVersion := m.version, schema := s2 } true := by
            simp [runMigrationsFrom, hdue, hrun, hcommit]
          rw [hred] at herr ⊢
          obtain ⟨hc, hall⟩ :=
            runFrom_success_bound commitOk rest m.version
              { userVersion := m.version, schema := s2 } true (le_refl _) herr
          refine ⟨le_trans (le_of_lt hdue) hc, ?_⟩
          intro m2 hm2
          rcases List.mem_cons.mp hm2 with hm2 | hm2
          · rw [hm2]
            exact hc
          · exact hall m2 hm2
        · rw [show runMigrationsFrom commitOk (m :: rest) cur db migrated =
              { db := db
              , err := some ("could not commit transaction for migration to version " ++
                  toString m.version)
              , vacuumRan := false } from by simp [runMigrationsFrom, hdue, hrun, hcommit]] at herr
          simp at herr
    · have hred : runMigrationsFrom commitOk (m :: rest) cur db migrated =
          runMigrationsFrom commitOk rest cur db migrated := by
        simp [runMigrationsFrom, hdue]
      rw [hred] at herr ⊢
      obtain ⟨hc, hall⟩ := runFrom_success_bound commitOk rest cur db migrated hcur herr
      refine ⟨hc, ?_⟩
      intro m2 hm2
      rcases List.mem_cons.mp hm2 with hm2 | hm2
      · rw [hm2]
        exact le_trans (not_lt.mp hdue) hc
      · exact hall m2 hm2

/-- Helper: on a successful run, the VACUUM pass runs exactly when the
migrated flag was already set or some migration in the list was due. -/
theorem runFrom_vacuum_iff {σ : Type} (commitOk : Int → Bool) :
    ∀ (migs : List (Migration σ)) (cur : Int) (db : MigDB σ) (migrated : Bool),
      (runMigrationsFrom commitOk migs cur db migrated).err = none →
      ((runMigrationsFrom commitOk migs cur db migrated).vacuumRan = true ↔
        migrated = true ∨ ∃ m ∈ migs, cur < m.version)
  | [], cur, db, migrated, _ => by
    simp [runMigrationsFrom]
  | m :: rest, cur, db, migrated, herr => by
    by_cases hdue : cur < m.version
    · rcases hrun : m.run db.schema with e | s2
      · rw [show runMigrationsFrom commitOk (m :: rest) cur db migrated =
            { db := db
            , err := some ("could not execute migration to version " ++ toString m.version ++
                ": " ++ e)
            , vacuumRan := false } from by simp [runMigrationsFrom, hdue, hrun]] at herr
        simp at herr
      · by_cases hcommit : commitOk m.version = true
        · have hred : runMigrationsFrom commitOk (m :: rest) cur db migrated =
              runMigrationsFrom commitOk rest m.version
                { userVersion := m.version, schema := s2 } true := by
            simp [runMigrationsFrom, hdue, hrun, hcommit]
          rw [hred] at herr ⊢
          have hv := (runFrom_vacuum_iff commitOk rest m.version
            { userVersion := m.version, schema := s2 } true herr).mpr (Or.inl rfl)
          rw [hv]
          exact iff_of_true rfl (Or.inr ⟨m, List.mem_cons_self m rest, hdue⟩)
        · rw [show runMigrationsFrom commitOk (m :: rest) cur db migrated =
              { db := db
              , err := some ("could not commit transaction for migration to version " ++
                  toString m.version)
              , vacuumRan := false } from by simp [runMigrationsFrom, hdue, hrun, hcommit]] at herr
          simp at herr
    · have hred : runMigrationsFrom commitOk (m :: rest) cur db migrated =
          runMigrationsFrom commitOk rest cur db migrated := by
        simp [runMigrationsFrom, hdue]
      rw [hred] at herr ⊢
      rw [runFrom_vacuum_iff commitOk rest cur db migrated herr]
      constructor
      · rintro (hm | ⟨x, hx, hltx⟩)
        · exact Or.inl hm
        · exact Or.inr ⟨x, List.mem_cons_of_mem m hx, hltx⟩
      · rintro (hm | ⟨x, hx, hltx⟩)
        · exact Or.inl hm
        · rcases List.mem_cons.mp hx with hx | hx
          · exact absurd (hx ▸ hltx) hdue
          · exact Or.inr ⟨x, hx, hltx⟩

/-- C4: after a successful migration run, a second run is a no-op — no
migration is due any more, the datastore (version and data) is returned
unchanged, no error occurs, and the compaction pass does not run; moreover
the first run's compaction pass ran exactly when at least one migration was
actually applied (some migration version exceeded the stored version). -/
theorem c4_migrations_idempotent {σ : Type} (commitOk : Int → Bool) (migs : List (Migration σ))
    (db : MigDB σ) (hfirst : (runMigrations commitOk migs db).err = none) :
    runMigrations commitOk migs (runMigrations commitOk migs db).db =
      { db := (runMigrations commitOk migs db).db, err := none, vacuumRan := false } ∧
    ((runMigrations commitOk migs db).vacuumRan = true ↔
      ∃ m ∈ migs, db.userVersion < m.version) := by
  have hb := runFrom_success_bound commitOk migs db.userVersion db false (le_refl _) hfirst
  constructor
  · exact runFrom_skip_all commitOk migs (runMigrations commitOk migs db).db.userVersion
      (runMigrations commitOk migs db).db (fun m hm => not_lt.mpr (hb.2 m hm))
  · unfold runMigrations
    rw [runFrom_vacuum_iff commitOk migs db.userVersion db false hfirst]
    simp

/-- Witness for C3 at the source's version sequence with a commit oracle that
fails at version 4: the run stops there, the first three migrations are fully
applied, and the persisted version is 3. -/
theorem c3_migrations_atomic_witness :
    ∃ pre post,
      demoMigs.filter (fun m => decide (demoDB.userVersion < m.version)) = pre ++ post ∧
      applyRun demoCommitFailAt4 pre demoDB =
        some (runMigrations demoCommitFailAt4 demoMigs demoDB).db ∧
      ((runMigrations demoCommitFailAt4 demoMigs demoDB).err = none ↔ post = []) ∧
      ((runMigrations demoCommitFailAt4 demoMigs demoDB).err ≠ none →
        ∃ m rest2, post = m :: rest2 ∧
          applyMigStep demoCommitFailAt4 m
            (runMigrations demoCommitFailAt4 demoMigs demoDB).db = none) ∧
      (runMigrations demoCommitFailAt4 demoMigs demoDB).db.userVersion =
        lastVersion pre demoDB.userVersion :=
  c3_migrations_atomic demoCommitFailAt4 demoMigs demoDB (by decide)

/-- Witness for C4 at the source's version sequence with all commits
succeeding: the second run is a no-op and the first run's compaction pass ran
because migrations were due. -/
theorem c4_migrations_idempotent_witness :
    runMigrations demoCommitAll demoMigs (runMigrations demoCommitAll demoMigs demoDB).db =
      { db := (runMigrations demoCommitAll demoMigs demoDB).db
      , err := none, vacuumRan := false } ∧
    ((runMigrations demoCommitAll demoMigs demoDB).vacuumRan = true ↔
      ∃ m ∈ demoMigs, demoDB.userVersion < m.version) :=
  c4_migrations_idempotent demoCommitAll demoMigs demoDB (by decide)

end SSHProxy
